import Mathlib

/-!
Verification of the QFNUNoticeMonitor repository.

The development shallowly embeds the two source files:
  * `qfnu_monitor/core/qfnu_jwc_gg.py` — the monitor with its JSON persistence
    (active store file, archive file), title-based diffing and the
    notification fan-out;
  * `qfnu_monitor/utils/onebot.py` — the OneBot v11 transport adapter.

File contents are modelled by `StoredFile`; the outcome of each external HTTP
call is a parameter of the embedding, so every function is a pure Lean
function of the program state and the environment.
-/

namespace QFNU

/-- A notice record as produced by `get_notices`:
`{"title": title, "link": link, "date": date}`. -/
structure Notice where
  title : String
  link : String
  date : String
deriving DecidableEq, Repr

/-- The observable state of a JSON store file.  `absent` models a path for
which `os.path.exists` is false; otherwise the file has a byte `size`
(`os.path.getsize`) and `contents`, the outcome of `json.load` on it:
`Except.ok ns` when the file deserializes to the list `ns`, `Except.error e`
when `json.load` raises. -/
inductive StoredFile where
  | absent
  | present (size : Nat) (contents : Except String (List Notice))
deriving Repr

/-- Model of `json.dump(ns, f, ensure_ascii=False, indent=2)` on a freshly opened
file: the serialized document is never empty (a JSON array is at least the
two bracket characters), and deserializing it yields `ns` back.  We track
only what the loaders observe: a nonzero size and the round-tripped list. -/
def json_dump (ns : List Notice) : StoredFile :=
  StoredFile.present (2 + ns.length) (Except.ok ns)

/-- The files owned by `QFNUJWCGGMonitor`: `self.data_file`
(`jwc_gg_notices.json`, the active store) and `self.archive_file`
(`archive/jwc_gg_notices_archive.json`). -/
structure MonitorState where
  data_file : StoredFile
  archive_file : StoredFile
deriving Repr

/-- Shared body of `load_saved_notices` and `load_archived_notices`:
return `[]` if the file does not exist or has size 0; otherwise
`try: return json.load(f) except Exception: log; return []`. -/
def load_notices_file (f : StoredFile) : List Notice :=
  match f with
  | StoredFile.absent => []
  | StoredFile.present size contents =>
    if size = 0 then []
    else
      match contents with
      | Except.ok ns => ns
      | Except.error _ => []

/-- Model of `QFNUJWCGGMonitor.load_saved_notices` (reads `self.data_file`). -/
def load_saved_notices (st : MonitorState) : List Notice :=
  load_notices_file st.data_file

/-- Model of `QFNUJWCGGMonitor.load_archived_notices` (reads `self.archive_file`). -/
def load_archived_notices (st : MonitorState) : List Notice :=
  load_notices_file st.archive_file

/-- Python slice `xs[-m:]` for a list (used as `notices[-self.max_notices:]`).
For `m = 0` Python reads `xs[0:] = xs`; for `m > 0` it is the last
`min m xs.length` elements. -/
def slice_from_neg (m : Nat) (xs : List Notice) : List Notice :=
  if m = 0 then xs else xs.drop (xs.length - m)

/-- Python slice `xs[:-m]` (used as `notices[:-self.max_notices]`).
For `m = 0` Python reads `xs[:0] = []`; for `m > 0` it drops the last
`min m xs.length` elements. -/
def slice_to_neg (m : Nat) (xs : List Notice) : List Notice :=
  if m = 0 then [] else xs.take (xs.length - m)

/-- Model of `QFNUJWCGGMonitor.archive_notices`: no-op on an empty argument, else
load the archive, append, and rewrite the archive file. -/
def archive_notices (st : MonitorState) (notices_to_archive : List Notice) :
    MonitorState :=
  if notices_to_archive.isEmpty then st
  else
    let archived_notices := load_archived_notices st
    let all_archived := archived_notices ++ notices_to_archive
    { st with archive_file := json_dump all_archived }

/-- Model of `QFNUJWCGGMonitor.save_notices` with `max_notices` (the field set to 30
in `__init__`) passed explicitly: write the last `max_notices` entries to the
active file, then archive the excess prefix when the input overflows. -/
def save_notices (max_notices : Nat) (st : MonitorState)
    (notices : List Notice) : MonitorState :=
  let latest_notices :=
    if notices.length > max_notices then slice_from_neg max_notices notices
    else notices
  let st1 : MonitorState := { st with data_file := json_dump latest_notices }
  if notices.length > max_notices then
    archive_notices st1 (slice_to_neg max_notices notices)
  else st1

/-- Model of `QFNUJWCGGMonitor.append_new_notices`: load the active store, concatenate
the new notices, and save the concatenation. -/
def append_new_notices (max_notices : Nat) (st : MonitorState)
    (new_notices : List Notice) : MonitorState :=
  let saved_notices := load_saved_notices st
  let all_notices := saved_notices ++ new_notices
  save_notices max_notices st all_notices

/-- Model of `QFNUJWCGGMonitor.find_new_notices`: if `saved_notices` is empty return
`current_notices`; else keep the current notices whose title is not in the
set of saved titles. -/
def find_new_notices (current_notices saved_notices : List Notice) :
    List Notice :=
  if saved_notices.isEmpty then current_notices
  else
    let saved_titles := saved_notices.map Notice.title
    current_notices.filter (fun notice => !(decide (notice.title ∈ saved_titles)))

/-! ### Message formatting (`push_to_feishu` / `push_to_onebot` bodies) -/

/-- One iteration of the formatting loop shared by `push_to_feishu` and
`push_to_onebot`: entry number, title line, date line, and the link line,
which ends with a blank-line separator except for the last entry
(`if i == len(new_notices)`). -/
def notice_block (i : Nat) (last : Bool) (n : Notice) : String :=
  "【" ++ toString i ++ "】" ++ n.title ++ "\n" ++ "📅 " ++ n.date ++ "\n" ++
    (if last then "🔗 " ++ n.link else "🔗 " ++ n.link ++ "\n\n")

/-- The formatting loop `for i, notice in enumerate(new_notices, 1)`; the
entry at the end of the list is the one with `i == len(new_notices)`. -/
def notices_body : Nat → List Notice → String
  | _, [] => ""
  | i, n :: rest => notice_block i rest.isEmpty n ++ notices_body (i + 1) rest

/-- Model of `f"📢 曲阜师范大学教务处有{len(new_notices)}条新公告"` — the feishu title
and the first line of the onebot message. -/
def push_header (new_notices : List Notice) : String :=
  "📢 曲阜师范大学教务处有" ++ toString new_notices.length ++ "条新公告"

/-- The single message string `push_to_onebot` hands to `onebot_send_all`. -/
def onebot_message_text (new_notices : List Notice) : String :=
  push_header new_notices ++ "\n\n" ++ notices_body 1 new_notices

/-! ### OneBot transport (`qfnu_monitor/utils/onebot.py`) -/

/-- The fields of a parsed OneBot API response body that the code reads:
`result.get("status")` and `result.get("message")`. -/
structure OBResponse where
  status : Option String
  message : Option String
deriving DecidableEq, Repr

/-- Outcome of `requests.post(api_url, ...)` for one group: a raised
`requests.exceptions.RequestException`, or a response whose `.json()` either
parses to a body or raises `json.JSONDecodeError`. -/
inductive HttpOutcome where
  | netError (e : String)
  | response (body : Except String OBResponse)

/-- A message segment `\x7b"type": ..., "data": \x7b"text": ...}}` (only the
fields the code constructs are tracked). -/
structure Segment where
  stype : String
  text : String
deriving DecidableEq, Repr

/-- The `Union[str, List[Dict]]` message argument of the send functions. -/
inductive OBMessage where
  | str (s : String)
  | segments (segs : List Segment)
deriving DecidableEq, Repr

/-- Message normalization in `send_group_message`: a plain string becomes a
single text segment, a segment array passes through. -/
def format_message : OBMessage → List Segment
  | OBMessage.str s => [⟨"text", s⟩]
  | OBMessage.segments segs => segs

/-- The process environment variables read by `OneBotSender.__init__`. -/
structure OBEnv where
  onebot_http_url : Option String
  onebot_access_token : Option String
  onebot_target_groups : Option String

/-- Model of `OneBotSender._parse_target_groups`: read `ONEBOT_TARGET_GROUPS` with
default `""`; an empty string yields `[]`; otherwise split on commas, strip
each part, and keep the non-empty parts. -/
def parse_target_groups (groups_env : Option String) : List String :=
  let groups_str := groups_env.getD ""
  if groups_str = "" then []
  else ((groups_str.splitOn ",").map String.trim).filter (fun g => g != "")

/-- The state of a constructed `OneBotSender`. -/
structure OneBotSender where
  onebot_url : String
  access_token : Option String
  target_groups : List String
deriving DecidableEq, Repr

/-- Model of `OneBotSender.__init__`: read the three environment variables, parse the
target groups, then raise `ValueError("OneBot HTTP URL 未配置")` when
`not self.onebot_url` (the variable is unset or the empty string).  An empty
`target_groups` list only logs a warning and does not fail. -/
def OneBotSender.create (env : OBEnv) : Except String OneBotSender :=
  let token := env.onebot_access_token
  let groups := parse_target_groups env.onebot_target_groups
  match env.onebot_http_url with
  | none => Except.error "OneBot HTTP URL 未配置"
  | some u =>
    if u = "" then Except.error "OneBot HTTP URL 未配置"
    else Except.ok ⟨u, token, groups⟩

/-- The `Dict[str, Any]` a single-group send evaluates to: the raw response
dict when `status == "ok"`, or the dict `\x7b"error": msg}`. -/
inductive SendResult where
  | okResult (body : OBResponse)
  | errorResult (msg : String)
deriving DecidableEq, Repr

/-- Model of `OneBotSender.send_group_message`.  The value is `Except String
SendResult` because two paths of the Python function RAISE instead of
returning: the `except RequestException` and `except json.JSONDecodeError`
handlers both evaluate the log f-string `f"...响应内容: \x7bresult}"`, and in
those handlers the local `result` was never assigned (the request, resp. the
`.json()` call, raised before `result = response.json()` completed), so the
f-string raises `UnboundLocalError`, which propagates out of the function
before the `return \x7b"error": error_msg}` statement is reached.  The
well-formed-response paths bind `result` and return normally. -/
def send_group_message (s : OneBotSender) (net : String → HttpOutcome)
    (group_id : String) (message : OBMessage) : Except String SendResult :=
  if s.onebot_url = "" then Except.ok (SendResult.errorResult "OneBot URL 未配置")
  else
    let _formatted_message := format_message message
    match net group_id with
    | HttpOutcome.netError _e =>
        Except.error "UnboundLocalError: local variable result referenced before assignment"
    | HttpOutcome.response body =>
      match body with
      | Except.error _e =>
          Except.error "UnboundLocalError: local variable result referenced before assignment"
      | Except.ok result =>
        if result.status = some "ok" then Except.ok (SendResult.okResult result)
        else Except.ok (SendResult.errorResult (result.message.getD "未知错误"))

/-- A result value without an `"error"` key (`if "error" not in result`). -/
def SendResult.isOk : SendResult → Bool
  | SendResult.okResult _ => true
  | SendResult.errorResult _ => false

/-- The `Dict[str, Any]` summary the multi-group send functions build, or
the early `\x7b"error": ...}` dict. -/
inductive OBResult where
  | errorResult (msg : String)
  | summary (total_groups success_count failed_count : Nat)
      (results : List (String × SendResult))
deriving DecidableEq, Repr

/-- The `for group_id in self.target_groups` loop of `send_to_all_groups`:
collects the result of each group; an exception raised by `send_group_message`
propagates (aborting the loop). -/
def send_results_loop (s : OneBotSender) (net : String → HttpOutcome)
    (message : OBMessage) : List String → Except String (List (String × SendResult))
  | [] => Except.ok []
  | g :: gs => do
    let r ← send_group_message s net g message
    let rest ← send_results_loop s net message gs
    Except.ok ((g, r) :: rest)

/-- Model of `success_count`: the number of results without an `"error"` key. -/
def count_success (rs : List (String × SendResult)) : Nat :=
  (rs.filter (fun gr => gr.2.isOk)).length

/-- Model of `OneBotSender.send_to_all_groups`: early `\x7b"error": ...}` when no
target groups are configured; otherwise send to each group and return the
summary dict with total, success and failed counts. -/
def send_to_all_groups (s : OneBotSender) (net : String → HttpOutcome)
    (message : OBMessage) : Except String OBResult :=
  if s.target_groups.isEmpty then
    Except.ok (OBResult.errorResult "没有配置目标群组")
  else do
    let results ← send_results_loop s net message s.target_groups
    let success_count := count_success results
    Except.ok (OBResult.summary s.target_groups.length success_count
      (s.target_groups.length - success_count) results)

/-- The convenience function `onebot_send_all`: construct the sender and send
to all groups inside `try`, converting any exception into
`\x7b"error": f"OneBot发送失败: \x7be}"}`. -/
def onebot_send_all (env : OBEnv) (net : String → HttpOutcome)
    (message : OBMessage) : OBResult :=
  match (do
      let sender ← OneBotSender.create env
      send_to_all_groups sender net message : Except String OBResult) with
  | Except.ok r => r
  | Except.error e => OBResult.errorResult ("OneBot发送失败: " ++ e)

/-! ### The monitor cycle (`QFNUJWCGGMonitor.monitor`) -/

/-- The external world a cycle interacts with: the page fetch (which may
raise a network error, else yields the parsed notice list), the behaviour of
the external `feishu(title, content)` call, and the process environment and
per-group HTTP outcomes seen by the OneBot transport. -/
structure Env where
  fetch_raises : Bool
  fetch_result : List Notice
  feishu_raises : Bool
  ob_env : OBEnv
  net : String → HttpOutcome

/-- Outcome of `push_to_feishu`: the `(title, content)` arguments of the
`feishu(...)` invocations made, and whether the external call raised. -/
structure FeishuOutcome where
  calls : List (String × String)
  raised : Bool

/-- Model of `QFNUJWCGGMonitor.push_to_feishu`: early return on an empty list, else
build the title and content and invoke `feishu(title, content)`; whether the
external call raises is determined by the environment. -/
def push_to_feishu (env : Env) (new_notices : List Notice) : FeishuOutcome :=
  if new_notices.isEmpty then ⟨[], false⟩
  else
    let title := push_header new_notices
    let content := notices_body 1 new_notices
    ⟨[(title, content)], env.feishu_raises⟩

/-- Model of `QFNUJWCGGMonitor.push_to_onebot`: early return on an empty list, else
build the message and call `onebot_send_all(message)`, which never raises;
the result only selects which line is logged.  The value records the
invocations made, each with its result. -/
def push_to_onebot (env : Env) (new_notices : List Notice) :
    List (String × OBResult) :=
  if new_notices.isEmpty then []
  else
    let message := onebot_message_text new_notices
    let result := onebot_send_all env.ob_env env.net (OBMessage.str message)
    [(message, result)]

/-- The transport invocations observed during one cycle. -/
structure Effects where
  feishu_calls : List (String × String)
  onebot_calls : List (String × OBResult)

/-- A cycle in which neither transport was invoked. -/
def noEffects : Effects := ⟨[], []⟩

/-- Model of `QFNUJWCGGMonitor.push_notifications`: each transport call is wrapped in
its own `try/except Exception` that logs and continues, so a raise from the
feishu call is discarded (the `raised` flag goes nowhere) and the onebot
call runs unconditionally afterwards. -/
def push_notifications (env : Env) (new_notices : List Notice) : Effects :=
  if new_notices.isEmpty then noEffects
  else
    let f := push_to_feishu env new_notices
    let o := push_to_onebot env new_notices
    { feishu_calls := f.calls, onebot_calls := o }

/-- Model of `QFNUJWCGGMonitor.monitor`: one cycle.  The whole body sits in a
`try/except Exception` that logs and swallows, so a fetch failure leaves the
state unchanged with no transport invoked.  Otherwise: empty fetch result →
warn and return; load the active store; `is_first_run` iff it is empty;
diff by title; no new notices → log and return; first run → save the fetched
notices without notifying; else notify then `append_new_notices`. -/
def monitor (max_notices : Nat) (env : Env) (st : MonitorState) :
    MonitorState × Effects :=
  if env.fetch_raises then (st, noEffects)
  else
    let current_notices := env.fetch_result
    if current_notices.isEmpty then (st, noEffects)
    else
      let saved_notices := load_saved_notices st
      let is_first_run := saved_notices.isEmpty
      let new_notices := find_new_notices current_notices saved_notices
      if new_notices.isEmpty then (st, noEffects)
      else
        if is_first_run then
          (save_notices max_notices st current_notices, noEffects)
        else
          (append_new_notices max_notices st new_notices,
           push_notifications env new_notices)

/-! ### Concrete sample data used to instantiate the theorems -/

def nA : Notice := ⟨"A", "https://jwc.qfnu.edu.cn/a.htm", "2026-01-01"⟩

def nB : Notice := ⟨"B", "https://jwc.qfnu.edu.cn/b.htm", "2026-01-02"⟩

def nC : Notice := ⟨"C", "https://jwc.qfnu.edu.cn/c.htm", "2026-01-03"⟩

/-- A store state with no files on disk yet. -/
def emptyState : MonitorState := ⟨StoredFile.absent, StoredFile.absent⟩

/-- A store state whose active file holds `[nA]`. -/
def seededState : MonitorState := ⟨json_dump [nA], StoredFile.absent⟩

/-- An environment where everything works: fetch returns `[nA, nB]`, no call
raises, OneBot is fully configured and every group answers `status = ok`. -/
def okEnv : Env :=
  { fetch_raises := false
    fetch_result := [nA, nB]
    feishu_raises := false
    ob_env := ⟨some "http://127.0.0.1:3000", none, some "111,222"⟩
    net := fun _ => HttpOutcome.response (Except.ok ⟨some "ok", none⟩) }

/-- Variant of `okEnv` with the external feishu call raising. -/
def feishuFailEnv : Env :=
  { okEnv with feishu_raises := true }

/-- Variant of `okEnv` with a fetch result already covered by `seededState`. -/
def subsetEnv : Env :=
  { okEnv with fetch_result := [nA] }

/-- A fully configured sender with one target group. -/
def oneGroupSender : OneBotSender := ⟨"http://127.0.0.1:3000", none, ["111"]⟩

/-- A fully configured sender with no target group. -/
def noGroupSender : OneBotSender := ⟨"http://127.0.0.1:3000", none, []⟩

/-- Network behaviour: every POST raises a `RequestException`. -/
def netFail : String → HttpOutcome :=
  fun _ => HttpOutcome.netError "Connection refused"

/-- Network behaviour: every POST answers with a body that is not JSON. -/
def netBadJson : String → HttpOutcome :=
  fun _ => HttpOutcome.response (Except.error "Expecting value")

/-- Network behaviour: every POST answers `status = ok`. -/
def netOk : String → HttpOutcome :=
  fun _ => HttpOutcome.response (Except.ok ⟨some "ok", none⟩)

/-- Process environment with `ONEBOT_HTTP_URL` unset. -/
def obEnvNoUrl : OBEnv := ⟨none, none, some "111,222"⟩

/-- Process environment with a URL but `ONEBOT_TARGET_GROUPS` unset. -/
def obEnvNoGroups : OBEnv := ⟨some "http://127.0.0.1:3000", none, none⟩

/-! ### Helper lemmas -/

theorem load_notices_file_json_dump (ns : List Notice) :
    load_notices_file (json_dump ns) = ns := by
  simp [json_dump, load_notices_file]

theorem archive_notices_data_file (st : MonitorState) (ns : List Notice) :
    (archive_notices st ns).data_file = st.data_file := by
  unfold archive_notices
  split <;> rfl

theorem save_notices_data_file (m : Nat) (st : MonitorState) (S : List Notice) :
    (save_notices m st S).data_file =
      json_dump (if S.length > m then slice_from_neg m S else S) := by
  by_cases h : S.length > m <;>
    simp [save_notices, archive_notices_data_file, h]

theorem save_notices_active (m : Nat) (hm0 : m ≠ 0) (st : MonitorState)
    (S : List Notice) :
    load_saved_notices (save_notices m st S) = S.drop (S.length - m) := by
  rw [load_saved_notices, save_notices_data_file]
  by_cases h : S.length > m
  · simp [h, slice_from_neg, hm0, load_notices_file_json_dump]
  · have h0 : S.length - m = 0 := by omega
    simp [h, h0, load_notices_file_json_dump]

theorem save_notices_archive_overflow (m : Nat) (hm0 : m ≠ 0)
    (st : MonitorState) (S : List Notice) (hlen : m < S.length) :
    load_archived_notices (save_notices m st S) =
      load_archived_notices st ++ S.take (S.length - m) := by
  have htake : slice_to_neg m S = S.take (S.length - m) := by
    simp [slice_to_neg, hm0]
  have hne : (S.take (S.length - m)).isEmpty = false := by
    rw [List.isEmpty_eq_false]
    intro hnil
    rcases List.take_eq_nil_iff.mp hnil with h0 | h0
    · omega
    · rw [h0] at hlen
      simp at hlen
  simp [save_notices, hlen, htake, archive_notices, hne,
    load_archived_notices, load_notices_file_json_dump]

theorem save_notices_archive_keep (m : Nat) (st : MonitorState)
    (S : List Notice) (hlen : S.length ≤ m) :
    (save_notices m st S).archive_file = st.archive_file := by
  have h : ¬ (S.length > m) := by omega
  simp [save_notices, h]

theorem find_new_notices_nil (saved : List Notice) :
    find_new_notices [] saved = [] := by
  by_cases h : saved.isEmpty <;> simp [find_new_notices, h]

/-- Unfolding of `monitor` in the first-run scenario: fetch succeeded with a
non-empty result and the active store loads as empty. -/
theorem monitor_eq_first_run (m : Nat) (env : Env) (st : MonitorState)
    (hf : env.fetch_raises = false) (hC : env.fetch_result ≠ [])
    (hempty : load_saved_notices st = []) :
    monitor m env st = (save_notices m st env.fetch_result, noEffects) := by
  have hCe : env.fetch_result.isEmpty = false := List.isEmpty_eq_false.mpr hC
  simp [monitor, hf, hCe, hempty, find_new_notices, hC]

/-- Unfolding of `monitor` in the steady-state scenario: fetch succeeded
with a non-empty result, the active store is non-empty, and the diff is
non-empty. -/
theorem monitor_eq_steady (m : Nat) (env : Env) (st : MonitorState)
    (hf : env.fetch_raises = false) (hC : env.fetch_result ≠ [])
    (hsaved : load_saved_notices st ≠ [])
    (hnew : find_new_notices env.fetch_result (load_saved_notices st) ≠ []) :
    monitor m env st =
      (append_new_notices m st
        (find_new_notices env.fetch_result (load_saved_notices st)),
       push_notifications env
        (find_new_notices env.fetch_result (load_saved_notices st))) := by
  have hCe : env.fetch_result.isEmpty = false := List.isEmpty_eq_false.mpr hC
  have hse : (load_saved_notices st).isEmpty = false :=
    List.isEmpty_eq_false.mpr hsaved
  have hne : (find_new_notices env.fetch_result
      (load_saved_notices st)).isEmpty = false :=
    List.isEmpty_eq_false.mpr hnew
  simp [monitor, hf, hCe, hse, hne]

/-! ### Claims -/

/-- Claim C2: when the active store loads as empty before the cycle and the
fetch returns a non-empty sequence `C`, after the cycle the active store
equals `C` (truncated to the last `max_notices` entries when `C` overflows)
and neither transport is invoked. -/
theorem first_run_seeds_active_without_notifying
    (m : Nat) (hm : 0 < m) (env : Env) (st : MonitorState)
    (hf : env.fetch_raises = false) (hC : env.fetch_result ≠ [])
    (hempty : load_saved_notices st = []) :
    (monitor m env st).2.feishu_calls = [] ∧
    (monitor m env st).2.onebot_calls = [] ∧
    load_saved_notices (monitor m env st).1 =
      env.fetch_result.drop (env.fetch_result.length - m) := by
  rw [monitor_eq_first_run m env st hf hC hempty]
  exact ⟨rfl, rfl, save_notices_active m (Nat.pos_iff_ne_zero.mp hm) st _⟩

/-- Witness for C2: empty store, fetch result `[nA, nB]`; the cycle stores
both notices and makes no transport call. -/
theorem first_run_seeds_active_without_notifying_witness :
    ((0 : Nat) < 30 ∧ okEnv.fetch_raises = false ∧ okEnv.fetch_result ≠ [] ∧
      load_saved_notices emptyState = []) ∧
    ((monitor 30 okEnv emptyState).2.feishu_calls = [] ∧
      (monitor 30 okEnv emptyState).2.onebot_calls = [] ∧
      load_saved_notices (monitor 30 okEnv emptyState).1 =
        okEnv.fetch_result.drop (okEnv.fetch_result.length - 30)) :=
  ⟨⟨by decide, rfl, List.cons_ne_nil _ _, rfl⟩,
   first_run_seeds_active_without_notifying 30 (by decide) okEnv emptyState rfl
     (List.cons_ne_nil _ _) rfl⟩

/-- Claim C4: when every fetched title already occurs among the titles of
the loaded active store, the cycle changes neither store file and invokes
neither transport: the monitor returns the state unchanged with no
effects. -/
theorem no_new_notices_cycle_readonly (m : Nat) (env : Env) (st : MonitorState)
    (hf : env.fetch_raises = false)
    (hsub : ∀ n ∈ env.fetch_result,
      n.title ∈ (load_saved_notices st).map Notice.title) :
    monitor m env st = (st, noEffects) := by
  by_cases hC : env.fetch_result.isEmpty = true
  · simp [monitor, hf, hC]
  · have hCf : env.fetch_result.isEmpty = false := by
      revert hC
      cases env.fetch_result.isEmpty <;> simp
    have hcur : env.fetch_result ≠ [] := List.isEmpty_eq_false.mp hCf
    have hsaved : load_saved_notices st ≠ [] := by
      obtain ⟨n0, hmem⟩ := List.exists_mem_of_ne_nil env.fetch_result hcur
      intro h
      have hn0 := hsub n0 hmem
      rw [h] at hn0
      simp at hn0
    have hnew : find_new_notices env.fetch_result (load_saved_notices st) = [] := by
      simp only [find_new_notices, List.isEmpty_eq_false.mpr hsaved,
        Bool.false_eq_true, if_false]
      rw [List.filter_eq_nil_iff]
      intro n hn
      simp [hsub n hn]
    simp [monitor, hf, hCf, hnew]

/-- Witness for C4: fetch result `[nA]` against an active store holding
`[nA]`. -/
theorem no_new_notices_cycle_readonly_witness :
    (subsetEnv.fetch_raises = false ∧
      ∀ n ∈ subsetEnv.fetch_result,
        n.title ∈ (load_saved_notices seededState).map Notice.title) ∧
    monitor 30 subsetEnv seededState = (seededState, noEffects) :=
  ⟨⟨rfl, by decide⟩,
   no_new_notices_cycle_readonly 30 subsetEnv seededState rfl (by decide)⟩

/-- Claim C7: in a steady-state cycle with non-empty new notices, a raise
from the feishu transport is caught inside `push_notifications`, so the
OneBot transport is still invoked (with its message and result recorded)
and the state is still updated through `append_new_notices`. -/
theorem feishu_failure_does_not_block_onebot_or_persistence
    (m : Nat) (env : Env) (st : MonitorState)
    (hf : env.fetch_raises = false)
    (hfe : env.feishu_raises = true)
    (hsaved : load_saved_notices st ≠ [])
    (hnew : find_new_notices env.fetch_result (load_saved_notices st) ≠ []) :
    (monitor m env st).2.onebot_calls =
      [(onebot_message_text
          (find_new_notices env.fetch_result (load_saved_notices st)),
        onebot_send_all env.ob_env env.net
          (OBMessage.str (onebot_message_text
            (find_new_notices env.fetch_result (load_saved_notices st)))))] ∧
    (monitor m env st).1 =
      append_new_notices m st
        (find_new_notices env.fetch_result (load_saved_notices st)) := by
  have hcur : env.fetch_result ≠ [] := by
    intro h
    rw [h, find_new_notices_nil] at hnew
    exact hnew rfl
  rw [monitor_eq_steady m env st hf hcur hsaved hnew]
  refine ⟨?_, rfl⟩
  simp [push_notifications, push_to_onebot, List.isEmpty_eq_false.mpr hnew]

/-- Witness for C7: active store `[nA]`, fetch result `[nA, nB]`, the
feishu call raising; the OneBot call still happens and `[nB]` is
persisted. -/
theorem feishu_failure_does_not_block_onebot_or_persistence_witness :
    (feishuFailEnv.fetch_raises = false ∧
      feishuFailEnv.feishu_raises = true ∧
      load_saved_notices seededState ≠ [] ∧
      find_new_notices feishuFailEnv.fetch_result
        (load_saved_notices seededState) ≠ []) ∧
    ((monitor 30 feishuFailEnv seededState).2.onebot_calls =
      [(onebot_message_text
          (find_new_notices feishuFailEnv.fetch_result
            (load_saved_notices seededState)),
        onebot_send_all feishuFailEnv.ob_env feishuFailEnv.net
          (OBMessage.str (onebot_message_text
            (find_new_notices feishuFailEnv.fetch_result
              (load_saved_notices seededState)))))] ∧
      (monitor 30 feishuFailEnv seededState).1 =
        append_new_notices 30 seededState
          (find_new_notices feishuFailEnv.fetch_result
            (load_saved_notices seededState))) :=
  ⟨⟨rfl, rfl, by decide, by decide⟩,
   feishu_failure_does_not_block_onebot_or_persistence 30 feishuFailEnv
     seededState rfl rfl (by decide) (by decide)⟩

/-- Claim C6: calling `archive_notices` with an empty input sequence leaves
the monitor state — in particular the content of the archive file —
unchanged. -/
theorem archive_notices_empty_noop (st : MonitorState) :
    archive_notices st [] = st := rfl

/-- Claim C3: if `saved` is non-empty, `find_new_notices current saved` is
the subsequence of `current` whose titles are not among the titles of
`saved`; if `saved` is empty, it is `current` in full. -/
theorem find_new_notices_filters_by_saved_titles
    (current saved : List Notice) :
    (saved = [] → find_new_notices current saved = current) ∧
    (saved ≠ [] →
      find_new_notices current saved =
        current.filter (fun n => decide (n.title ∉ saved.map Notice.title))) := by
  constructor
  · intro h
    subst h
    simp [find_new_notices]
  · intro h
    simp only [find_new_notices, List.isEmpty_iff, if_neg h, decide_not]

/-- Witness for C3 at a concrete pair of lists. -/
theorem find_new_notices_filters_by_saved_titles_witness :
    (([⟨"A", "", ""⟩, ⟨"B", "", ""⟩] : List Notice) ≠ []) ∧
    find_new_notices [⟨"A", "la", "d1"⟩, ⟨"C", "lc", "d3"⟩]
        [⟨"A", "", ""⟩, ⟨"B", "", ""⟩] =
      List.filter
        (fun n => decide (n.title ∉
          ([⟨"A", "", ""⟩, ⟨"B", "", ""⟩] : List Notice).map Notice.title))
        [⟨"A", "la", "d1"⟩, ⟨"C", "lc", "d3"⟩] :=
  ⟨by decide,
   (find_new_notices_filters_by_saved_titles
      [⟨"A", "la", "d1"⟩, ⟨"C", "lc", "d3"⟩]
      [⟨"A", "", ""⟩, ⟨"B", "", ""⟩]).2 (by decide)⟩

/-- Claim C1: for a positive `max_notices` (the program uses 30),
`save_notices` writes exactly the last `max_notices` entries of `S` (all of
`S` when it fits) to the active file, so at most `max_notices` entries; when
`S` overflows, the excess oldest prefix is appended to the archive store,
and otherwise the archive file is untouched. -/
theorem save_notices_bounds_active_and_archives_excess
    (m : Nat) (hm : 0 < m) (st : MonitorState) (S : List Notice) :
    load_saved_notices (save_notices m st S) = S.drop (S.length - m) ∧
    (load_saved_notices (save_notices m st S)).length ≤ m ∧
    (m < S.length →
      load_archived_notices (save_notices m st S) =
        load_archived_notices st ++ S.take (S.length - m)) ∧
    (S.length ≤ m → (save_notices m st S).archive_file = st.archive_file) := by
  have hm0 : m ≠ 0 := Nat.pos_iff_ne_zero.mp hm
  have h1 := save_notices_active m hm0 st S
  refine ⟨h1, ?_, ?_, ?_⟩
  · rw [h1, List.length_drop]
    omega
  · intro hlen
    exact save_notices_archive_overflow m hm0 st S hlen
  · intro hlen
    exact save_notices_archive_keep m st S hlen

/-- Witness for C1 with `max_notices = 2` and the three-notice input
`[nA, nB, nC]`, which overflows the active window by one. -/
theorem save_notices_bounds_active_and_archives_excess_witness :
    (0 : Nat) < 2 ∧
    (load_saved_notices (save_notices 2 emptyState [nA, nB, nC]) =
        [nA, nB, nC].drop ([nA, nB, nC].length - 2) ∧
      (load_saved_notices (save_notices 2 emptyState [nA, nB, nC])).length ≤ 2 ∧
      (2 < [nA, nB, nC].length →
        load_archived_notices (save_notices 2 emptyState [nA, nB, nC]) =
          load_archived_notices emptyState ++
            [nA, nB, nC].take ([nA, nB, nC].length - 2)) ∧
      ([nA, nB, nC].length ≤ 2 →
        (save_notices 2 emptyState [nA, nB, nC]).archive_file =
          emptyState.archive_file)) :=
  ⟨by decide,
   save_notices_bounds_active_and_archives_excess 2 (by decide) emptyState
     [nA, nB, nC]⟩

/-- Claim C5: both loaders return `[]` when the backing file is absent or
has size zero, and return `[]` when deserialization fails; being total Lean
functions into `List Notice`, they never raise to the caller. -/
theorem load_functions_recover_errors (st : MonitorState) :
    (st.data_file = StoredFile.absent → load_saved_notices st = []) ∧
    (∀ c, st.data_file = StoredFile.present 0 c → load_saved_notices st = []) ∧
    (∀ k e, st.data_file = StoredFile.present k (Except.error e) →
      load_saved_notices st = []) ∧
    (st.archive_file = StoredFile.absent → load_archived_notices st = []) ∧
    (∀ c, st.archive_file = StoredFile.present 0 c →
      load_archived_notices st = []) ∧
    (∀ k e, st.archive_file = StoredFile.present k (Except.error e) →
      load_archived_notices st = []) := by
  refine ⟨?_, ?_, ?_, ?_, ?_, ?_⟩ <;>
    (intros
     simp_all [load_saved_notices, load_archived_notices, load_notices_file])

/-- Witness for C5 at a concrete store: absent active file, archive file of
nonzero size whose contents fail to deserialize. -/
theorem load_functions_recover_errors_witness :
    ((⟨StoredFile.absent, StoredFile.present 7 (Except.error "bad json")⟩ :
        MonitorState).data_file = StoredFile.absent ∧
      load_saved_notices
        ⟨StoredFile.absent, StoredFile.present 7 (Except.error "bad json")⟩ = []) ∧
    load_archived_notices
      ⟨StoredFile.absent, StoredFile.present 7 (Except.error "bad json")⟩ = [] :=
  ⟨⟨rfl,
    (load_functions_recover_errors
      ⟨StoredFile.absent, StoredFile.present 7 (Except.error "bad json")⟩).1 rfl⟩,
   (load_functions_recover_errors
      ⟨StoredFile.absent, StoredFile.present 7 (Except.error "bad json")⟩).2.2.2.2.2
     7 "bad json" rfl⟩

/-- Claim C8, settled against the code: the ok-status and non-ok-status
paths of `send_group_message` return as the claim states, but on a network
error or a JSON-decode failure the function RAISES — the except handler
evaluates a log f-string that reads the local `result` before it was ever
assigned — instead of returning the `error` dict the handler was meant to
return. -/
theorem send_group_message_raises_on_handler_bug :
    send_group_message oneGroupSender netFail "111" (OBMessage.str "hi") =
      Except.error
        "UnboundLocalError: local variable result referenced before assignment" ∧
    send_group_message oneGroupSender netBadJson "111" (OBMessage.str "hi") =
      Except.error
        "UnboundLocalError: local variable result referenced before assignment" ∧
    send_group_message oneGroupSender netOk "111" (OBMessage.str "hi") =
      Except.ok (SendResult.okResult ⟨some "ok", none⟩) ∧
    send_group_message oneGroupSender
        (fun _ => HttpOutcome.response
          (Except.ok ⟨some "failed", some "rate limited"⟩))
        "111" (OBMessage.str "hi") =
      Except.ok (SendResult.errorResult "rate limited") :=
  ⟨rfl, rfl, rfl, rfl⟩

/-- Claim C9: `OneBotSender` construction fails exactly when the
`ONEBOT_HTTP_URL` variable is unset or empty — an absent group list does not
fail construction — and `onebot_send_all` converts that construction failure
into an `error`-keyed dict instead of propagating it. -/
theorem sender_construction_requires_url_only (env : OBEnv) :
    ((∃ e, OneBotSender.create env = Except.error e) ↔
      (env.onebot_http_url = none ∨ env.onebot_http_url = some "")) ∧
    (∀ e, OneBotSender.create env = Except.error e →
      ∀ (net : String → HttpOutcome) (message : OBMessage),
        onebot_send_all env net message =
          OBResult.errorResult ("OneBot发送失败: " ++ e)) := by
  constructor
  · constructor
    · rintro ⟨e, he⟩
      unfold OneBotSender.create at he
      cases hu : env.onebot_http_url with
      | none => exact Or.inl rfl
      | some u =>
        rw [hu] at he
        by_cases h0 : u = ""
        · subst h0
          exact Or.inr rfl
        · simp [h0] at he
    · rintro (h | h) <;>
        exact ⟨"OneBot HTTP URL 未配置", by simp [OneBotSender.create, h]⟩
  · intro e he net message
    unfold onebot_send_all
    rw [he]
    rfl

/-- Witness for C9: with `ONEBOT_HTTP_URL` unset (and groups set),
construction fails, and `onebot_send_all` returns the error dict. -/
theorem sender_construction_requires_url_only_witness :
    ((∃ e, OneBotSender.create obEnvNoUrl = Except.error e) ↔
      (obEnvNoUrl.onebot_http_url = none ∨
        obEnvNoUrl.onebot_http_url = some "")) ∧
    onebot_send_all obEnvNoUrl netOk (OBMessage.str "hi") =
      OBResult.errorResult ("OneBot发送失败: " ++ "OneBot HTTP URL 未配置") :=
  ⟨(sender_construction_requires_url_only obEnvNoUrl).1,
   (sender_construction_requires_url_only obEnvNoUrl).2 "OneBot HTTP URL 未配置"
     rfl netOk (OBMessage.str "hi")⟩

/-- Claim C10: with an empty configured target-group list,
`send_to_all_groups` returns the plain `error` dict (not a summary with
total/success/failed counts) without attempting any per-group send — the
result does not depend on the network — and `onebot_send_all` surfaces the
same dict when the sender is constructible but no groups parse from the
environment. -/
theorem send_to_all_groups_empty_targets_error (message : OBMessage) :
    (∀ (s : OneBotSender) (net : String → HttpOutcome), s.target_groups = [] →
      send_to_all_groups s net message =
        Except.ok (OBResult.errorResult "没有配置目标群组")) ∧
    (∀ (env : OBEnv) (u : String) (net : String → HttpOutcome),
      env.onebot_http_url = some u → u ≠ "" →
      parse_target_groups env.onebot_target_groups = [] →
      onebot_send_all env net message =
        OBResult.errorResult "没有配置目标群组") := by
  have h1 : ∀ (s : OneBotSender) (net : String → HttpOutcome),
      s.target_groups = [] →
      send_to_all_groups s net message =
        Except.ok (OBResult.errorResult "没有配置目标群组") := by
    intro s net h
    simp [send_to_all_groups, h]
  refine ⟨h1, ?_⟩
  intro env u net hu h0 hg
  have hc : OneBotSender.create env =
      Except.ok ⟨u, env.onebot_access_token,
        parse_target_groups env.onebot_target_groups⟩ := by
    simp [OneBotSender.create, hu, h0]
  have hs : send_to_all_groups
      ⟨u, env.onebot_access_token, parse_target_groups env.onebot_target_groups⟩
      net message = Except.ok (OBResult.errorResult "没有配置目标群组") :=
    h1 _ net hg
  unfold onebot_send_all
  rw [hc]
  show (match send_to_all_groups
      ⟨u, env.onebot_access_token, parse_target_groups env.onebot_target_groups⟩
      net message with
    | Except.ok r => r
    | Except.error e => OBResult.errorResult ("OneBot发送失败: " ++ e)) =
    OBResult.errorResult "没有配置目标群组"
  rw [hs]

/-- Witness for C10: a sender with no groups, and an environment with a URL
but no `ONEBOT_TARGET_GROUPS`. -/
theorem send_to_all_groups_empty_targets_error_witness :
    (noGroupSender.target_groups = [] ∧
      obEnvNoGroups.onebot_http_url = some "http://127.0.0.1:3000" ∧
      parse_target_groups obEnvNoGroups.onebot_target_groups = []) ∧
    send_to_all_groups noGroupSender netOk (OBMessage.str "hi") =
      Except.ok (OBResult.errorResult "没有配置目标群组") ∧
    onebot_send_all obEnvNoGroups netOk (OBMessage.str "hi") =
      OBResult.errorResult "没有配置目标群组" :=
  ⟨⟨rfl, rfl, rfl⟩,
   (send_to_all_groups_empty_targets_error (OBMessage.str "hi")).1 noGroupSender
     netOk rfl,
   (send_to_all_groups_empty_targets_error (OBMessage.str "hi")).2 obEnvNoGroups
     "http://127.0.0.1:3000" netOk rfl (by decide) rfl⟩

end QFNU
